import Mathlib

/-!
Shallow embedding of `src/body/CollisionBody.cpp` (ReactPhysics3D, 2013 era).

The body keeps an intrusive singly-linked list of proxy collision shapes,
modelled here as a Lean `List` of `ProxyShape` records whose `pid` field is
the node's address (the handle compared by pointer identity in the C++ code).
Calls into the collaborators (broad-phase collision detection, the world's
collision-shape store, the pooled memory allocator) are recorded as an event
trace.  Types the collaborators own (Transform, AABB, Vector3, Ray, decimal,
RaycastInfo) are type parameters, and collaborator computations
(Transform multiplication, CollisionShape::computeAABB,
ProxyShape::testPointInside) are function parameters.

A C++ null-pointer dereference or a failing `assert` has no defined result:
operations that can reach one return `Option`, with `none` for the abort.
The shape counter is modelled as `ℤ` so that the spec's non-negativity
claim is meaningful.
-/

namespace CollisionBodySpec

/-- One node of the body's intrusive proxy-shape list
(`ProxyShape` in the C++ code). `pid` is the node's address, which is the
handle callers hold; `shapeId` is the shared `CollisionShape*` obtained from
the world's store; `localTransform` is the local-to-body transform. The
intrusive `mNext` pointer is represented by the node's position in a
Lean list. -/
structure ProxyShape (T : Type) where
  pid : ℕ
  shapeId : ℕ
  localTransform : T
deriving DecidableEq, Repr

/-- One call into a collaborator (the world's collision detection, the
collision-shape store, or the pooled allocator), recorded in the order the
C++ code makes it. `A` is the AABB type. -/
inductive Event (A : Type) where
  /-- The call `mWorld.createCollisionShape(collisionShape)` -/
  | createShape : ℕ → Event A
  /-- The call `mWorld.mMemoryAllocator.allocate(sizeof(ProxyShape))` plus the
  placement construction of the proxy -/
  | allocateProxy : ℕ → Event A
  /-- The call `mWorld.mCollisionDetection.addProxyCollisionShape(proxy, aabb)` -/
  | addProxy : ℕ → A → Event A
  /-- The call `mWorld.mCollisionDetection.removeProxyCollisionShape(proxy)` -/
  | removeProxy : ℕ → Event A
  /-- The call `mWorld.mCollisionDetection.updateProxyCollisionShape(proxy, aabb)` -/
  | updateProxy : ℕ → A → Event A
  /-- The call `mWorld.mCollisionDetection.askForBroadPhaseCollisionCheck(proxy)` -/
  | askRecheck : ℕ → Event A
  /-- The call `mWorld.removeCollisionShape(shape)` (release of the shared,
  store-owned shape) -/
  | removeShape : ℕ → Event A
  /-- The call `proxy->ProxyShape::~ProxyShape()` -/
  | destructProxy : ℕ → Event A
  /-- The call `mWorld.mMemoryAllocator.release(proxy, sizeof(ProxyShape))` -/
  | releaseProxyMem : ℕ → Event A
  /-- The call `element->ContactManifoldListElement::~ContactManifoldListElement()` -/
  | destructManifold : ℕ → Event A
  /-- The call `mWorld.mMemoryAllocator.release(element, sizeof(ContactManifoldListElement))` -/
  | releaseManifoldMem : ℕ → Event A
deriving DecidableEq, Repr

/-- The fields of `CollisionBody` the embedded operations read or write.
`mProxyCollisionShapes` is the list head (head of the Lean list = the node
the C++ head pointer designates); `mContactManifoldsList` is the body's
contact-manifold list, its elements opaque to this core and modelled by
their addresses. -/
structure BodyState (T : Type) where
  mTransform : T
  mProxyCollisionShapes : List (ProxyShape T)
  mNbCollisionShapes : ℤ
  mContactManifoldsList : List ℕ
deriving DecidableEq, Repr

/-- Embeds `CollisionBody::CollisionBody`: a freshly constructed body has a null
proxy-list head, shape count 0 and a null contact-manifold list. -/
def mkCollisionBody {T : Type} (transform : T) : BodyState T :=
  { mTransform := transform
    mProxyCollisionShapes := []
    mNbCollisionShapes := 0
    mContactManifoldsList := [] }

/-- Embeds `CollisionBody::addCollisionShape` (lines 64-95): create the shared
shape in the world's store, placement-construct a new proxy in pooled
storage, link it in as the new list head (the two branches of the C++
`if (mProxyCollisionShapes == NULL)` both amount to a prepend), compute the
world AABB of the shape under `mTransform * transform`, register the proxy
with the broad-phase, increment the count, and return the proxy pointer.
`newPid` is the address the allocator returned; `sid` is the shape handle
the store returned for the caller's shape definition. -/
def addCollisionShape {T A : Type} (comp : T → T → T) (computeAABB : ℕ → T → A)
    (b : BodyState T) (newPid sid : ℕ) (transform : T) :
    BodyState T × ℕ × List (Event A) :=
  let proxyShape : ProxyShape T := ⟨newPid, sid, transform⟩
  let newList : List (ProxyShape T) :=
    match b.mProxyCollisionShapes with
    | [] => [proxyShape]
    | l => proxyShape :: l
  let aabb := computeAABB sid (comp b.mTransform transform)
  ({ b with
      mProxyCollisionShapes := newList
      mNbCollisionShapes := b.mNbCollisionShapes + 1 },
   newPid,
   [Event.createShape sid, Event.allocateProxy newPid, Event.addProxy newPid aabb])

/-- The `while (current->mNext != NULL)` loop of
`CollisionBody::removeCollisionShape` (lines 114-132), started at the
successor list of the node `current` points at: returns the suffix as
relinked by the loop together with the removed element, if the loop found
one. -/
def removeScan {T : Type} (h : ℕ) :
    List (ProxyShape T) → List (ProxyShape T) × Option (ProxyShape T)
  | [] => ([], none)
  | next :: rest =>
      if next.pid = h then (rest, some next)
      else
        let r := removeScan h rest
        (next :: r.1, r.2)

/-- Embeds `CollisionBody::removeCollisionShape` (lines 98-135). The handle `h` is
the address of the proxy to remove, compared against each node by pointer
identity. On an empty list the C++ code evaluates `current->mNext` with
`current == NULL`, a null-pointer dereference: the result is `none`.
If the scan finds no node, the code falls through to
`assert(mNbCollisionShapes >= 0)` and returns with no effect; a failing
assert is likewise `none`. -/
def removeCollisionShape {T : Type} (A : Type) (b : BodyState T) (h : ℕ) :
    Option (BodyState T × List (Event A)) :=
  match b.mProxyCollisionShapes with
  | [] => none
  | current :: rest =>
    if current.pid = h then
      some ({ b with
                mProxyCollisionShapes := rest
                mNbCollisionShapes := b.mNbCollisionShapes - 1 },
            [Event.removeProxy h, Event.removeShape current.shapeId,
             Event.destructProxy h, Event.releaseProxyMem h])
    else
      match removeScan h rest with
      | (_, none) =>
          if 0 ≤ b.mNbCollisionShapes then some (b, []) else none
      | (relinked, some elementToRemove) =>
          some ({ b with
                    mProxyCollisionShapes := current :: relinked
                    mNbCollisionShapes := b.mNbCollisionShapes - 1 },
                [Event.removeProxy h, Event.removeShape elementToRemove.shapeId,
                 Event.destructProxy h, Event.releaseProxyMem h])

/-- The traversal loop of `CollisionBody::removeAllCollisionShapes`
(lines 143-154): for every node in order, deregister it from the
broad-phase, release its shared shape at the store, destruct it and release
its pooled storage. -/
def removeAllLoop {T : Type} (A : Type) : List (ProxyShape T) → List (Event A)
  | [] => []
  | current :: rest =>
      Event.removeProxy current.pid :: Event.removeShape current.shapeId ::
      Event.destructProxy current.pid :: Event.releaseProxyMem current.pid ::
      removeAllLoop A rest

/-- Embeds `CollisionBody::removeAllCollisionShapes` (lines 138-157): walk the
whole list applying the deregister/release/destruct/free sequence, then set
the head to `NULL`. Note the C++ code never writes `mNbCollisionShapes`
here. -/
def removeAllCollisionShapes {T : Type} (A : Type) (b : BodyState T) :
    BodyState T × List (Event A) :=
  ({ b with mProxyCollisionShapes := [] },
   removeAllLoop A b.mProxyCollisionShapes)

/-- The traversal loop of `CollisionBody::resetContactManifoldsList`
(lines 164-172): destruct every element and release its pooled storage. -/
def resetManifoldsLoop (A : Type) : List ℕ → List (Event A)
  | [] => []
  | current :: rest =>
      Event.destructManifold current :: Event.releaseManifoldMem current ::
      resetManifoldsLoop A rest

/-- Embeds `CollisionBody::resetContactManifoldsList` (lines 160-174): delete the
linked list of contact manifolds, then set its head to `NULL`. -/
def resetContactManifoldsList {T : Type} (A : Type) (b : BodyState T) :
    BodyState T × List (Event A) :=
  ({ b with mContactManifoldsList := [] },
   resetManifoldsLoop A b.mContactManifoldsList)

/-- Embeds `CollisionBody::~CollisionBody` (lines 47-52):
`assert(mContactManifoldsList == NULL)` — a non-empty contact-manifold list
aborts (`none`) — then `removeAllCollisionShapes()`. -/
def destructCollisionBody {T : Type} (A : Type) (b : BodyState T) :
    Option (BodyState T × List (Event A)) :=
  match b.mContactManifoldsList with
  | _ :: _ => none
  | [] => some (removeAllCollisionShapes A b)

/-- The loop of `CollisionBody::updateBroadPhaseState` (lines 180-188):
for every proxy, recompute the world AABB of its shape under
`mTransform * shape->getLocalToBodyTransform()` and push it to the
broad-phase with an update call. -/
def updateBroadPhaseLoop {T A : Type} (comp : T → T → T)
    (computeAABB : ℕ → T → A) (bodyTransform : T) :
    List (ProxyShape T) → List (Event A)
  | [] => []
  | shape :: rest =>
      Event.updateProxy shape.pid
        (computeAABB shape.shapeId (comp bodyTransform shape.localTransform)) ::
      updateBroadPhaseLoop comp computeAABB bodyTransform rest

/-- Embeds `CollisionBody::updateBroadPhaseState` (lines 177-189). The method is
`const`: it returns the body unchanged next to the trace of broad-phase
calls it makes. -/
def updateBroadPhaseState {T A : Type} (comp : T → T → T)
    (computeAABB : ℕ → T → A) (b : BodyState T) :
    BodyState T × List (Event A) :=
  (b, updateBroadPhaseLoop comp computeAABB b.mTransform b.mProxyCollisionShapes)

/-- The loop of `CollisionBody::testPointInside` (lines 206-210): test each
proxy in list order and return `true` on the first containment, recording
which proxies were queried. `inside` is the collaborator call
`shape->testPointInside(worldPoint)`. -/
def testPointLoop {T V : Type} (inside : ProxyShape T → V → Bool) (p : V) :
    List (ProxyShape T) → Bool × List ℕ
  | [] => (false, [])
  | shape :: rest =>
      if inside shape p then (true, [shape.pid])
      else
        let r := testPointLoop inside p rest
        (r.1, shape.pid :: r.2)

/-- Embeds `CollisionBody::testPointInside` (lines 203-213): true iff some proxy
of the body reports the world point inside; the second component is the
sequence of proxies actually queried. -/
def testPointInside {T V : Type} (inside : ProxyShape T → V → Bool)
    (b : BodyState T) (p : V) : Bool × List ℕ :=
  testPointLoop inside p b.mProxyCollisionShapes

/-- Embeds `CollisionBody::raycast(const Ray&, decimal)` (lines 216-219): an
unimplemented placeholder, returns `false` for every input. `R` is the
collaborator-owned `Ray` type, `D` the scalar `decimal` type. -/
def raycast {T R D : Type} (b : BodyState T) (ray : R) (distance : D) : Bool :=
  false

/-- Embeds `CollisionBody::raycast(const Ray&, RaycastInfo&, decimal)`
(lines 222-225): an unimplemented placeholder, returns `false` and leaves
the out-parameter `raycastInfo` untouched; `I` is the collaborator-owned
`RaycastInfo` type and the second component is the out-parameter's value on
return. -/
def raycastWithInfo {T R D I : Type} (b : BodyState T) (ray : R)
    (raycastInfo : I) (distance : D) : Bool × I :=
  (false, raycastInfo)

/-- One externally drivable operation on a body, for stating reachability:
the operations named by the spec's lifecycle claims. -/
inductive Op (T : Type) where
  | attach : ℕ → ℕ → T → Op T
  | detach : ℕ → Op T
  | detachAll : Op T
  | teardown : Op T
deriving DecidableEq, Repr

/-- Apply one operation to a body state; `none` when the C++ code has no
defined result (null dereference or failing assert). -/
def stepOp {T : Type} (A : Type) (comp : T → T → T) (computeAABB : ℕ → T → A)
    (b : BodyState T) : Op T → Option (BodyState T)
  | Op.attach newPid sid t => some (addCollisionShape comp computeAABB b newPid sid t).1
  | Op.detach h => (removeCollisionShape A b h).map Prod.fst
  | Op.detachAll => some (removeAllCollisionShapes A b).1
  | Op.teardown => (destructCollisionBody A b).map Prod.fst

/-- Run a sequence of operations from a given state. -/
def runOps {T : Type} (A : Type) (comp : T → T → T) (computeAABB : ℕ → T → A) :
    BodyState T → List (Op T) → Option (BodyState T)
  | b, [] => some b
  | b, op :: rest =>
      match stepOp A comp computeAABB b op with
      | none => none
      | some b₂ => runOps A comp computeAABB b₂ rest

/-- A concrete body with two attached proxy shapes, used to instantiate the
general theorems at evaluable inputs. -/
def bodyTwoShapes : BodyState ℕ :=
  { mTransform := 0
    mProxyCollisionShapes := [⟨1, 7, 0⟩, ⟨2, 8, 0⟩]
    mNbCollisionShapes := 2
    mContactManifoldsList := [] }

/-- A concrete body with three attached proxy shapes. -/
def bodyThreeShapes : BodyState ℕ :=
  { mTransform := 0
    mProxyCollisionShapes := [⟨1, 7, 0⟩, ⟨2, 8, 0⟩, ⟨3, 9, 0⟩]
    mNbCollisionShapes := 3
    mContactManifoldsList := [] }

/-- A concrete body whose contact-manifold list is non-empty. -/
def bodyWithManifolds : BodyState ℕ :=
  { mTransform := 0
    mProxyCollisionShapes := [⟨1, 7, 0⟩]
    mNbCollisionShapes := 1
    mContactManifoldsList := [3, 4] }

/-! Helper lemmas shared by the claim theorems. -/

/-- The removal loop computes `eraseP`/`find?` of the pointer-identity
predicate over the scanned suffix. -/
theorem removeScan_eq {T : Type} (h : ℕ) (l : List (ProxyShape T)) :
    removeScan h l =
      (l.eraseP (fun s => s.pid == h), l.find? (fun s => s.pid == h)) := by
  induction l with
  | nil => rfl
  | cons x rest ih =>
      by_cases hx : x.pid = h
      · simp [removeScan, hx, List.eraseP_cons, List.find?_cons]
      · simp [removeScan, hx, List.eraseP_cons, List.find?_cons, ih]

/-- Full characterization of one attach call: the new proxy is prepended,
the count incremented, the handle returned, and the collaborators called in
order with the AABB computed under the composed transform. -/
theorem addCollisionShape_eq {T A : Type} (comp : T → T → T)
    (computeAABB : ℕ → T → A) (b : BodyState T) (newPid sid : ℕ) (t : T) :
    addCollisionShape comp computeAABB b newPid sid t =
      ({ b with
          mProxyCollisionShapes := ⟨newPid, sid, t⟩ :: b.mProxyCollisionShapes
          mNbCollisionShapes := b.mNbCollisionShapes + 1 },
       newPid,
       [Event.createShape sid, Event.allocateProxy newPid,
        Event.addProxy newPid (computeAABB sid (comp b.mTransform t))]) := by
  cases hl : b.mProxyCollisionShapes <;> simp [addCollisionShape, hl]

/-- Every proxy of the traversed list is deregistered from the broad-phase
by the teardown loop. -/
theorem removeProxy_mem_removeAllLoop {T : Type} (A : Type)
    (l : List (ProxyShape T)) (s : ProxyShape T) (hs : s ∈ l) :
    Event.removeProxy s.pid ∈ removeAllLoop A l := by
  induction l with
  | nil => cases hs
  | cons c rest ih =>
      rcases List.mem_cons.mp hs with h | h
      · subst h; simp [removeAllLoop]
      · simp [removeAllLoop, ih h]

/-- The point-containment loop returns the disjunction over the list. -/
theorem testPointLoop_fst {T V : Type} (inside : ProxyShape T → V → Bool)
    (p : V) (l : List (ProxyShape T)) :
    (testPointLoop inside p l).1 = l.any (fun s => inside s p) := by
  induction l with
  | nil => rfl
  | cons s rest ih => cases hs : inside s p <;> simp [testPointLoop, hs, ih]

/-- The point-containment loop stops at the first containing proxy: the
queried proxies are exactly the failing ones before it, then it. -/
theorem testPointLoop_shortCircuit {T V : Type}
    (inside : ProxyShape T → V → Bool) (p : V) (l₁ : List (ProxyShape T))
    (s : ProxyShape T) (l₂ : List (ProxyShape T))
    (h1 : ∀ x ∈ l₁, inside x p = false) (hs : inside s p = true) :
    testPointLoop inside p (l₁ ++ s :: l₂) =
      (true, l₁.map ProxyShape.pid ++ [s.pid]) := by
  induction l₁ with
  | nil => simp [testPointLoop, hs]
  | cons x rest ih =>
      have hx : inside x p = false := h1 x (List.mem_cons_self x rest)
      have ih2 := ih (fun y hy => h1 y (List.mem_cons_of_mem x hy))
      simp [testPointLoop, hx, ih2]

/-- The broad-phase refresh loop emits exactly one update call per proxy,
with the AABB computed under the composed transform. -/
theorem updateBroadPhaseLoop_eq_map {T A : Type} (comp : T → T → T)
    (computeAABB : ℕ → T → A) (bt : T) (l : List (ProxyShape T)) :
    updateBroadPhaseLoop comp computeAABB bt l =
      l.map (fun s =>
        Event.updateProxy s.pid
          (computeAABB s.shapeId (comp bt s.localTransform))) := by
  induction l with
  | nil => rfl
  | cons s rest ih => simp [updateBroadPhaseLoop, ih]

/-- Each element of the contact list is destructed exactly as often as it
occurs in the list. -/
theorem count_destruct_resetLoop (A : Type) [DecidableEq A] (l : List ℕ)
    (m : ℕ) :
    (resetManifoldsLoop A l).count (Event.destructManifold m) = l.count m := by
  induction l with
  | nil => rfl
  | cons c rest ih =>
      by_cases hc : c = m <;>
        simp [resetManifoldsLoop, List.count_cons, hc, ih]

/-- Each element of the contact list has its storage released exactly as
often as it occurs in the list. -/
theorem count_release_resetLoop (A : Type) [DecidableEq A] (l : List ℕ)
    (m : ℕ) :
    (resetManifoldsLoop A l).count (Event.releaseManifoldMem m) =
      l.count m := by
  induction l with
  | nil => rfl
  | cons c rest ih =>
      by_cases hc : c = m <;>
        simp [resetManifoldsLoop, List.count_cons, hc, ih]

/-- Every event the contact-list teardown emits is the destruction or the
storage release of some list element. -/
theorem resetLoop_events (A : Type) (l : List ℕ) :
    ∀ e ∈ resetManifoldsLoop A l, ∃ m ∈ l,
      e = Event.destructManifold m ∨ e = Event.releaseManifoldMem m := by
  induction l with
  | nil => intro e he; cases he
  | cons c rest ih =>
      intro e he
      rcases he with _ | ⟨_, he⟩
      · exact ⟨c, List.mem_cons_self c rest, Or.inl rfl⟩
      · rcases he with _ | ⟨_, he⟩
        · exact ⟨c, List.mem_cons_self c rest, Or.inr rfl⟩
        · rcases ih e he with ⟨m, hm, hor⟩
          exact ⟨m, List.mem_cons_of_mem c hm, hor⟩

/-- Running a sequence of attach operations always succeeds, adds one node
and one unit of count per call. -/
theorem runOps_attach_counts {T A : Type} (comp : T → T → T)
    (computeAABB : ℕ → T → A) (args : List (ℕ × ℕ × T)) (b : BodyState T) :
    (runOps A comp computeAABB b
        (args.map fun a => Op.attach a.1 a.2.1 a.2.2)).map
      (fun r => (r.mNbCollisionShapes, r.mProxyCollisionShapes.length)) =
    some (b.mNbCollisionShapes + args.length,
          b.mProxyCollisionShapes.length + args.length) := by
  induction args generalizing b with
  | nil => simp [runOps]
  | cons a rest ih =>
      simp only [List.map_cons, runOps, stepOp, addCollisionShape_eq]
      rw [ih]
      simp only [Option.some.injEq, Prod.mk.injEq, List.length_cons]
      constructor <;> [push_cast; skip] <;> omega

/-! The claim theorems. -/

/-- C1: evaluation of the code at a failing input. The claim states that in
every reachable body state the shape-count field equals the number of live
nodes reachable from the proxy-list head. Reachable counterexample: from a
fresh body, one attach followed by detach-all leaves
`mNbCollisionShapes = 1` while the proxy list is empty (length 0), because
`removeAllCollisionShapes` resets the list head but never writes the
counter. -/
theorem C1_count_list_desync_reachable :
    (runOps ℕ (fun a b => a * b) (fun s t => s + t) (mkCollisionBody 1)
        [Op.attach 2 7 3, Op.detachAll]).map
      (fun r => (r.mNbCollisionShapes, r.mProxyCollisionShapes.length)) =
    some (1, 0) := by rfl

/-- C2: evaluation of the code at a failing input. On a body reached by two
attach calls, `removeAllCollisionShapes` empties the list and performs the
deregister/release/destruct/free sequence exactly once per proxy (the trace
lists each call once), but the shape count stays 2 — the claim's "shape
count 0" fails because the code never resets `mNbCollisionShapes`. -/
theorem C2_detachAll_keeps_stale_count :
    (runOps ℕ (fun a b => a * b) (fun s t => s + t) (mkCollisionBody 1)
        [Op.attach 2 7 3, Op.attach 4 8 5]).map (removeAllCollisionShapes ℕ) =
    some ({ mTransform := 1
            mProxyCollisionShapes := []
            mNbCollisionShapes := 2
            mContactManifoldsList := [] },
          [Event.removeProxy 4, Event.removeShape 8, Event.destructProxy 4,
           Event.releaseProxyMem 4, Event.removeProxy 2, Event.removeShape 7,
           Event.destructProxy 2, Event.releaseProxyMem 2]) := by rfl

/-- C3, counterexample: on a body whose proxy list is empty, detaching a
foreign handle is not a silent no-op. The C++ code compares the `NULL` head
with the handle, then evaluates `current->mNext` with `current == NULL` — a
null-pointer dereference, modelled by `none` (a silent no-op would be
`some (body, [])`). -/
theorem C3_empty_list_dereferences_null :
    removeCollisionShape (T := ℕ) ℕ (mkCollisionBody 1) 5 = none := by rfl

/-- C3, amended: for every body whose proxy list is non-empty (and whose
shape count is non-negative, so the trailing `assert` passes), detaching a
handle that is in no node of this body's list scans the whole list and is a
silent no-op: the state is returned unchanged and no collaborator call is
made. -/
theorem C3_foreign_detach_silent_noop {T : Type} (A : Type) (b : BodyState T)
    (h : ℕ) (hne : b.mProxyCollisionShapes ≠ [])
    (hnotin : ∀ s ∈ b.mProxyCollisionShapes, s.pid ≠ h)
    (hcount : 0 ≤ b.mNbCollisionShapes) :
    removeCollisionShape A b h = some (b, []) := by
  cases hl : b.mProxyCollisionShapes with
  | nil => exact absurd hl hne
  | cons c rest =>
      have hc : c.pid ≠ h := hnotin c (hl ▸ List.mem_cons_self c rest)
      have hrest : rest.find? (fun s => s.pid == h) = none := by
        rw [List.find?_eq_none]
        intro x hx
        simp [hnotin x (hl ▸ List.mem_cons_of_mem c hx)]
      simp [removeCollisionShape, hl, hc, removeScan_eq, hrest, hcount]

/-- Witness for the amended C3 at a concrete two-node body and a foreign
handle. -/
theorem C3_foreign_detach_silent_noop_witness :
    removeCollisionShape ℕ bodyTwoShapes 9 = some (bodyTwoShapes, []) :=
  C3_foreign_detach_silent_noop ℕ bodyTwoShapes 9 (by decide) (by decide)
    (by decide)

/-- C4: detaching a handle that identifies a node of the body's list (the
node `find?` locates under pointer identity) removes exactly the first such
node (`eraseP` of the identity predicate — the same expression whether the
node is the head, interior or tail, and `eraseP` of a singleton is `[]`),
decrements the shape count by exactly 1, and makes exactly one broad-phase
deregistration, one store release of that node's shared shape, one
destructor call and one pooled-storage release, in that order. -/
theorem C4_detach_member {T : Type} (A : Type) (b : BodyState T) (h : ℕ)
    (e : ProxyShape T)
    (hfind : b.mProxyCollisionShapes.find? (fun s => s.pid == h) = some e) :
    removeCollisionShape A b h =
      some ({ b with
                mProxyCollisionShapes :=
                  b.mProxyCollisionShapes.eraseP (fun s => s.pid == h)
                mNbCollisionShapes := b.mNbCollisionShapes - 1 },
            [Event.removeProxy h, Event.removeShape e.shapeId,
             Event.destructProxy h, Event.releaseProxyMem h]) := by
  cases hl : b.mProxyCollisionShapes with
  | nil => rw [hl] at hfind; cases hfind
  | cons c rest =>
      rw [hl] at hfind
      by_cases hc : c.pid = h
      · have he : c = e := by
          rw [List.find?_cons_of_pos _ (by simp [hc])] at hfind
          exact Option.some.inj hfind
        subst he
        simp [removeCollisionShape, hl, hc, List.eraseP_cons]
      · have hfind2 : rest.find? (fun s => s.pid == h) = some e := by
          rwa [List.find?_cons_of_neg _ (by simp [hc])] at hfind
        simp [removeCollisionShape, hl, hc, removeScan_eq, hfind2,
          List.eraseP_cons]

/-- Witness for C4: detaching the interior (and last) node of a concrete
two-node body. -/
theorem C4_detach_member_witness :
    removeCollisionShape ℕ bodyTwoShapes 2 =
      some ({ mTransform := 0
              mProxyCollisionShapes := [⟨1, 7, 0⟩]
              mNbCollisionShapes := 1
              mContactManifoldsList := [] },
            [Event.removeProxy 2, Event.removeShape 8,
             Event.destructProxy 2, Event.releaseProxyMem 2]) :=
  C4_detach_member ℕ bodyTwoShapes 2 ⟨2, 8, 0⟩ (by rfl)

/-- C5: each attach call prepends the newly constructed proxy (the new node
is the list head) and returns that node's identity as the handle; and after
any sequence of N attach calls on a freshly constructed body the shape
count is N and the proxy list has exactly N nodes. -/
theorem C5_attach_prepends_and_counts {T A : Type} (comp : T → T → T)
    (computeAABB : ℕ → T → A) :
    (∀ (b : BodyState T) (newPid sid : ℕ) (t : T),
        addCollisionShape comp computeAABB b newPid sid t =
          ({ b with
              mProxyCollisionShapes :=
                ⟨newPid, sid, t⟩ :: b.mProxyCollisionShapes
              mNbCollisionShapes := b.mNbCollisionShapes + 1 },
           newPid,
           [Event.createShape sid, Event.allocateProxy newPid,
            Event.addProxy newPid (computeAABB sid (comp b.mTransform t))])) ∧
    (∀ (t0 : T) (args : List (ℕ × ℕ × T)),
        (runOps A comp computeAABB (mkCollisionBody t0)
            (args.map fun a => Op.attach a.1 a.2.1 a.2.2)).map
          (fun r => (r.mNbCollisionShapes, r.mProxyCollisionShapes.length)) =
        some ((args.length : ℤ), args.length)) := by
  refine ⟨addCollisionShape_eq comp computeAABB, fun t0 args => ?_⟩
  rw [runOps_attach_counts]
  simp [mkCollisionBody]

/-- C6: destroying a body whose contact-manifold list is non-empty hits the
fatal assertion (no normal return, modelled by `none`); destroying one
whose contact-manifold list is empty runs the detach-all sequence, so the
proxy list ends empty and every proxy of the body is deregistered from the
broad-phase. -/
theorem C6_destructor_fatal_or_teardown {T : Type} (A : Type)
    (b : BodyState T) :
    (b.mContactManifoldsList ≠ [] → destructCollisionBody A b = none) ∧
    (b.mContactManifoldsList = [] →
      destructCollisionBody A b = some (removeAllCollisionShapes A b) ∧
      (removeAllCollisionShapes A b).1.mProxyCollisionShapes = [] ∧
      ∀ s ∈ b.mProxyCollisionShapes,
        Event.removeProxy s.pid ∈ (removeAllCollisionShapes A b).2) := by
  constructor
  · intro hne
    cases hl : b.mContactManifoldsList with
    | nil => exact absurd hl hne
    | cons c rest => simp [destructCollisionBody, hl]
  · intro he
    refine ⟨by simp [destructCollisionBody, he], rfl, fun s hs => ?_⟩
    exact removeProxy_mem_removeAllLoop A _ s hs

/-- Witness for C6: a body with manifolds aborts; a body without manifolds
is torn down, deregistering its proxy 1. -/
theorem C6_destructor_witness :
    destructCollisionBody ℕ bodyWithManifolds = none ∧
    destructCollisionBody ℕ bodyTwoShapes =
      some (removeAllCollisionShapes ℕ bodyTwoShapes) ∧
    Event.removeProxy 1 ∈ (removeAllCollisionShapes ℕ bodyTwoShapes).2 :=
  ⟨(C6_destructor_fatal_or_teardown ℕ bodyWithManifolds).1 (by decide),
   ((C6_destructor_fatal_or_teardown ℕ bodyTwoShapes).2 rfl).1,
   ((C6_destructor_fatal_or_teardown ℕ bodyTwoShapes).2 rfl).2.2 ⟨1, 7, 0⟩
     (by decide)⟩

/-- C7: the broad-phase refresh leaves the body unchanged and pushes, for
every live proxy in order, one update call whose AABB is computed from the
composed transform `mTransform * localTransform`; every emitted event is an
update call (never a remove or an add); and at attach time the registered
AABB is likewise computed from the composed transform. -/
theorem C7_aabb_composed_and_update_call {T A : Type} (comp : T → T → T)
    (computeAABB : ℕ → T → A) (b : BodyState T) :
    updateBroadPhaseState comp computeAABB b =
      (b, b.mProxyCollisionShapes.map fun s =>
            Event.updateProxy s.pid
              (computeAABB s.shapeId (comp b.mTransform s.localTransform))) ∧
    (∀ e ∈ (updateBroadPhaseState comp computeAABB b).2,
        ∃ pid aabb, e = Event.updateProxy pid aabb) ∧
    (∀ (newPid sid : ℕ) (t : T),
        (addCollisionShape comp computeAABB b newPid sid t).2.2 =
          [Event.createShape sid, Event.allocateProxy newPid,
           Event.addProxy newPid (computeAABB sid (comp b.mTransform t))]) := by
  refine ⟨?_, ?_, ?_⟩
  · unfold updateBroadPhaseState
    rw [updateBroadPhaseLoop_eq_map]
  · intro e he
    simp only [updateBroadPhaseState, updateBroadPhaseLoop_eq_map,
      List.mem_map] at he
    rcases he with ⟨s, _, rfl⟩
    exact ⟨s.pid, _, rfl⟩
  · intro newPid sid t
    rw [addCollisionShape_eq]

/-- Witness for C7 at a concrete body and concrete collaborator
functions. -/
theorem C7_aabb_composed_witness :
    updateBroadPhaseState (fun a b => a * b) (fun s t => s + t)
        bodyTwoShapes =
      (bodyTwoShapes, [Event.updateProxy 1 7, Event.updateProxy 2 8]) ∧
    ∃ pid aabb,
      (Event.updateProxy 1 7 : Event ℕ) = Event.updateProxy pid aabb :=
  ⟨(C7_aabb_composed_and_update_call (fun a b => a * b) (fun s t => s + t)
      bodyTwoShapes).1,
   (C7_aabb_composed_and_update_call (fun a b => a * b) (fun s t => s + t)
      bodyTwoShapes).2.1 (Event.updateProxy 1 7) (by decide)⟩

/-- C8: the contact-manifold teardown empties the contact list and leaves
the proxy list, the shape count and the transform untouched; every emitted
event destructs or releases a contact-list element; and when the list has
no duplicate elements, each element is destructed exactly once and its
pooled storage released exactly once. -/
theorem C8_resetManifolds_scoped {T : Type} (A : Type) [DecidableEq A]
    (b : BodyState T) :
    (resetContactManifoldsList A b).1.mContactManifoldsList = [] ∧
    (resetContactManifoldsList A b).1.mProxyCollisionShapes =
      b.mProxyCollisionShapes ∧
    (resetContactManifoldsList A b).1.mNbCollisionShapes =
      b.mNbCollisionShapes ∧
    (resetContactManifoldsList A b).1.mTransform = b.mTransform ∧
    (∀ e ∈ (resetContactManifoldsList A b).2, ∃ m ∈ b.mContactManifoldsList,
        e = Event.destructManifold m ∨ e = Event.releaseManifoldMem m) ∧
    (b.mContactManifoldsList.Nodup → ∀ m ∈ b.mContactManifoldsList,
        (resetContactManifoldsList A b).2.count
            (Event.destructManifold m) = 1 ∧
        (resetContactManifoldsList A b).2.count
            (Event.releaseManifoldMem m) = 1) := by
  refine ⟨rfl, rfl, rfl, rfl,
    resetLoop_events A b.mContactManifoldsList, fun hnd m hm => ⟨?_, ?_⟩⟩
  · rw [show (resetContactManifoldsList A b).2 =
        resetManifoldsLoop A b.mContactManifoldsList from rfl,
      count_destruct_resetLoop]
    exact List.count_eq_one_of_mem hnd hm
  · rw [show (resetContactManifoldsList A b).2 =
        resetManifoldsLoop A b.mContactManifoldsList from rfl,
      count_release_resetLoop]
    exact List.count_eq_one_of_mem hnd hm

/-- Witness for C8 on a concrete body with contact elements 3 and 4. -/
theorem C8_resetManifolds_witness :
    (resetContactManifoldsList ℕ bodyWithManifolds).1.mContactManifoldsList =
      [] ∧
    (resetContactManifoldsList ℕ bodyWithManifolds).1.mProxyCollisionShapes =
      bodyWithManifolds.mProxyCollisionShapes ∧
    (resetContactManifoldsList ℕ bodyWithManifolds).2.count
        (Event.destructManifold 3) = 1 ∧
    (resetContactManifoldsList ℕ bodyWithManifolds).2.count
        (Event.releaseManifoldMem 3) = 1 :=
  ⟨(C8_resetManifolds_scoped ℕ bodyWithManifolds).1,
   (C8_resetManifolds_scoped ℕ bodyWithManifolds).2.1,
   ((C8_resetManifolds_scoped ℕ bodyWithManifolds).2.2.2.2.2 (by decide) 3
     (by decide)).1,
   ((C8_resetManifolds_scoped ℕ bodyWithManifolds).2.2.2.2.2 (by decide) 3
     (by decide)).2⟩

/-- C9: the point-containment test returns true iff some live proxy reports
the point inside; on an empty list it returns false having queried nothing;
and it short-circuits — when the list splits as non-containing proxies,
then a containing proxy `s`, then anything, exactly the non-containing
prefix and `s` are queried and the proxies after `s` are not. -/
theorem C9_containsPoint_spec {T V : Type} (inside : ProxyShape T → V → Bool)
    (b : BodyState T) (p : V) :
    ((testPointInside inside b p).1 = true ↔
        ∃ s ∈ b.mProxyCollisionShapes, inside s p = true) ∧
    (b.mProxyCollisionShapes = [] →
        testPointInside inside b p = (false, [])) ∧
    (∀ l₁ (s : ProxyShape T) l₂, b.mProxyCollisionShapes = l₁ ++ s :: l₂ →
        (∀ x ∈ l₁, inside x p = false) → inside s p = true →
        testPointInside inside b p =
          (true, l₁.map ProxyShape.pid ++ [s.pid])) := by
  refine ⟨?_, ?_, ?_⟩
  · unfold testPointInside
    rw [testPointLoop_fst]
    simp [List.any_eq_true]
  · intro he
    unfold testPointInside
    rw [he]
    rfl
  · intro l₁ s l₂ hl h1 hs
    unfold testPointInside
    rw [hl]
    exact testPointLoop_shortCircuit inside p l₁ s l₂ h1 hs

/-- Witness for C9: on a three-proxy body the query matching the second
proxy stops there, having queried proxies 1 and 2 only. -/
theorem C9_containsPoint_witness :
    testPointInside (fun s q => s.shapeId == q) bodyThreeShapes 8 =
      (true, [1, 2]) :=
  (C9_containsPoint_spec (fun s q => s.shapeId == q) bodyThreeShapes 8).2.2
    [⟨1, 7, 0⟩] ⟨2, 8, 0⟩ [⟨3, 9, 0⟩] (by rfl) (by decide) (by rfl)

/-- C10: both raycast overloads return false for every body, ray and
distance, and the overload with feedback returns the feedback structure
exactly as it received it. -/
theorem C10_raycast_stubs_false {T R D I : Type} (b : BodyState T) (ray : R)
    (distance : D) (info : I) :
    raycast b ray distance = false ∧
    raycastWithInfo b ray info distance = (false, info) :=
  ⟨rfl, rfl⟩

end CollisionBodySpec
